import Mathlib

/-!
Shallow embedding of `gcp_ddns.py`, a dynamic-DNS client keeping Google
Cloud DNS "A" records in sync with the host's public IP address.

The embedding follows the source file line by line:

* `Record` is the dict `{"name", "type", "ttl", "rrdatas"}` used for record
  sets (line 158 and lines 197-202 of `gcp_ddns.py`).
* `Decide` is the branch structure of `main` at lines 175-224: no record
  found means create; matching name/type with equal IP means nothing to do;
  matching name/type with a different IP means delete then create; anything
  else is a logged mismatch with no action taken.
* `apply_run` is the sequence of change submissions (calls to `dns_change`)
  and log events that each branch performs, parametrised by the success or
  failure of each submission (`dns_change`'s boolean result).
* `hostStep` and `runCycle` model one iteration of the body of the
  `for count, config_host in enumerate(...)` loop and one full pass of that
  loop over the host list, including the `return 1` exits, the
  sleep-and-continue path on a failed IP lookup (lines 146-153), and the
  end-of-cycle sleep guarded by `count == len(config['hosts'])` (lines
  226-231).
* `poll` is the fuel-bounded unfolding of the status-polling loop of
  `dns_change` (lines 277-284).
-/

namespace GcpDdns

/-- A DNS resource record set as the script passes it around: the dict
`{"name": ..., "type": ..., "ttl": ..., "rrdatas": [...]}`. -/
structure Record where
  name : String
  type : String
  ttl : Nat
  rrdatas : List String
  deriving DecidableEq, Repr

/-- The per-host configuration entry (`config_host`, lines 105-110). -/
structure HostConfig where
  project_id : String
  managed_zone : String
  domain : String
  host : String
  ttl : Nat
  interval : Nat
  deriving DecidableEq, Repr

/-- The record set built from the configuration and the freshly resolved
public IP (line 158):
`record_set = {"name": host, "type": "A", "ttl": ttl, "rrdatas": [ip]}`. -/
def record_set (cfg : HostConfig) (ip : String) : Record :=
  { name := cfg.host, type := "A", ttl := cfg.ttl, rrdatas := [ip] }

/-- The four outcomes of the branch at lines 175-224 of `main`:
the spec's Action variants plus the log-only mismatch case. -/
inductive Decision where
  | noop
  | mismatch
  | create (r : Record)
  | replace (old fresh : Record)
  deriving DecidableEq, Repr

/-- The decision logic of `main`, lines 175-224.  `rrsets` is
`response["rrsets"]` from the provider lookup.  `none` models the uncaught
`IndexError` raised at line 177 (`rrset["rrdatas"][0]`) when the first
returned record has no values.  The comparison `rrset["type"] is "A"` at
line 186 is modelled as string equality: under CPython the one-character
literal `"A"` is interned, so identity coincides with equality there.
The record deleted in the replace case is `del_record_set` from lines
197-202: configured host name, the fetched record's type and ttl, and
only the fetched record's first value. -/
def Decide (ip : String) (cfg : HostConfig) (rrsets : List Record) :
    Option Decision :=
  match rrsets with
  | [] => some (Decision.create (record_set cfg ip))
  | rrset :: _ =>
    match rrset.rrdatas with
    | [] => none
    | google_ip :: _ =>
      if rrset.name = cfg.host ∧ rrset.type = "A" then
        if google_ip = ip then some Decision.noop
        else
          some (Decision.replace
            { name := cfg.host, type := rrset.type, ttl := rrset.ttl,
              rrdatas := [google_ip] }
            (record_set cfg ip))
      else some Decision.mismatch

/-- One change submission to the provider: the additions and deletions
carried by a single `zone.changes()` object when `change.create()` is
called (lines 252-267). -/
structure ChangeSub where
  deletions : List Record
  additions : List Record
  deriving DecidableEq, Repr

/-- The submission `dns_change(zone, rs, "delete")` builds: one change
carrying a single deletion (lines 257-259). -/
def delete_sub (r : Record) : ChangeSub :=
  { deletions := [r], additions := [] }

/-- The submission `dns_change(zone, rs, "create")` builds: one change
carrying a single addition (lines 260-262). -/
def create_sub (r : Record) : ChangeSub :=
  { deletions := [], additions := [r] }

/-- `dns_change` (lines 239-284): the submission made for a command, or
`none` when `cmd` is neither `"delete"` nor `"create"`, in which case the
function returns `False` before any API call (lines 263-264). -/
def dns_change_sub (rs : Record) (cmd : String) : Option ChangeSub :=
  if cmd = "delete" then some (delete_sub rs)
  else if cmd = "create" then some (create_sub rs)
  else none

/-- The log events emitted while a decision is carried out
(lines 187-224). -/
inductive LogEvent where
  | matchInfo
  | noopInfo
  | deleteDebug (r : Record)
  | deleteFailed (r : Record)
  | createDebug (r : Record)
  | createFailed (r : Record)
  | mismatchError
  | noRecordInfo (r : Record)
  deriving DecidableEq, Repr

/-- Carrying out a decision (lines 186-224 of `main`): the list of change
submissions issued, in order, and the log events emitted.  `outcome`
gives the boolean result of `dns_change` for each submission; the source
consults it only to choose log lines (lines 205-208, 211-212, 223-224) —
a failed deletion never prevents the subsequent creation and nothing is
retried inside the pass. -/
def apply_run (outcome : ChangeSub → Bool) (d : Decision) :
    List ChangeSub × List LogEvent :=
  match d with
  | Decision.noop => ([], [LogEvent.matchInfo, LogEvent.noopInfo])
  | Decision.mismatch => ([], [LogEvent.mismatchError])
  | Decision.create r =>
    ([create_sub r],
      LogEvent.noRecordInfo r ::
        (if outcome (create_sub r) then [] else [LogEvent.createFailed r]))
  | Decision.replace old fresh =>
    ([delete_sub old, create_sub fresh],
      [LogEvent.matchInfo, LogEvent.deleteDebug old] ++
        (if outcome (delete_sub old) then [] else [LogEvent.deleteFailed old]) ++
        [LogEvent.createDebug fresh] ++
        (if outcome (create_sub fresh) then [] else [LogEvent.createFailed fresh]))

/-- Outcome of `request.execute()` at lines 161-172: a record list, or one
of the two caught exception classes (`errors.HttpError`,
`corexc.Forbidden`), each of which makes `main` return 1. -/
inductive LookupOutcome where
  | ok (rrsets : List Record)
  | httpError
  | forbidden
  deriving Repr

/-- The external world seen by one host's pass: whether `dns.Client`
construction succeeds (lines 127-138), the HTTP status and body of the
ipify request (lines 143-156), the provider lookup outcome (lines
161-172), and the result of each change submission. -/
structure PassEnv where
  client_ok : Bool
  ip_status : Nat
  ip : String
  lookup : LookupOutcome
  outcome : ChangeSub → Bool

/-- How one iteration of the per-host loop body ends: a `return 1` from
`main`, a sleep-then-continue (lines 150-153), normal completion with the
submissions made, or an uncaught exception. -/
inductive StepResult where
  | exit (code : Nat)
  | sleepContinue (secs : Nat)
  | completed (subs : List ChangeSub) (logs : List LogEvent)
  | crash
  deriving DecidableEq, Repr

/-- One host's pass: the loop body at lines 99-224, in source order.
The check `host[-1] != "."` at line 113 reads the last character: on an
empty host name it raises `IndexError` (crash), on a last character other
than `'.'` `main` returns 1 (lines 113-117).  A failed client
construction returns 1 (lines 127-138); a non-200 ipify status sleeps for
this host's interval and continues (lines 146-153); a lookup exception
returns 1 (lines 161-172); otherwise the decision is carried out.  An
empty `rrdatas` in the first fetched record crashes (line 177). -/
def hostStep (cfg : HostConfig) (env : PassEnv) : StepResult :=
  match cfg.host.data.getLast? with
  | none => StepResult.crash
  | some c =>
  if c ≠ '.' then StepResult.exit 1
  else if ¬ env.client_ok then StepResult.exit 1
  else if env.ip_status ≠ 200 then StepResult.sleepContinue cfg.interval
  else
    match env.lookup with
    | LookupOutcome.httpError => StepResult.exit 1
    | LookupOutcome.forbidden => StepResult.exit 1
    | LookupOutcome.ok rrsets =>
      match Decide env.ip cfg rrsets with
      | none => StepResult.crash
      | some d => StepResult.completed (apply_run env.outcome d).1 (apply_run env.outcome d).2

/-- How one pass of the for loop over all hosts ends: fall through to the
next cycle, a `return` from `main`, or an uncaught exception. -/
inductive CycleEnd where
  | normal
  | exited (code : Nat)
  | crashed
  deriving DecidableEq, Repr

/-- The observable effects of one pass of the for loop over all hosts:
every `time.sleep` duration in order, every change submission in order,
the hosts whose pass body actually ran, and how the pass ended. -/
structure CycleResult where
  sleeps : List Nat
  subs : List ChangeSub
  processed : List String
  ending : CycleEnd
  deriving DecidableEq, Repr

/-- One full iteration of `for count, config_host in enumerate(config['hosts'])`
(lines 99-231).  A `return 1` or a crash stops the loop at that host; a
failed ipify lookup sleeps for that host's own interval and moves on
(lines 146-153); after a completed pass the guard `count == len(config['hosts'])`
(line 227) fires exactly when the host is the last of the list, adding one
sleep of that host's interval (line 231). -/
def runCycle (env : HostConfig → PassEnv) : List HostConfig → CycleResult
  | [] => { sleeps := [], subs := [], processed := [], ending := CycleEnd.normal }
  | cfg :: rest =>
    match hostStep cfg (env cfg) with
    | StepResult.exit c =>
      { sleeps := [], subs := [], processed := [cfg.host],
        ending := CycleEnd.exited c }
    | StepResult.crash =>
      { sleeps := [], subs := [], processed := [cfg.host],
        ending := CycleEnd.crashed }
    | StepResult.sleepContinue s =>
      let r := runCycle env rest
      { sleeps := s :: r.sleeps, subs := r.subs,
        processed := cfg.host :: r.processed, ending := r.ending }
    | StepResult.completed subs _ =>
      let r := runCycle env rest
      { sleeps := (if rest = [] then [cfg.interval] else []) ++ r.sleeps,
        subs := subs ++ r.subs,
        processed := cfg.host :: r.processed, ending := r.ending }

/-- Fuel-bounded unfolding of the polling loop of `dns_change`
(lines 277-284).  `statuses n` is the value of `change.status` after `n`
calls to `change.reload()`; `statuses 0` is the status right after
`change.create()`.  Each iteration whose status is not `"done"` sleeps 10
seconds and reloads.  The result is the list of sleep durations performed
before the loop exits, or `none` when `"done"` was not reached within
`fuel` iterations. -/
def pollFrom (statuses : Nat → String) (k : Nat) : Nat → Option (List Nat)
  | 0 => if statuses k = "done" then some [] else none
  | fuel + 1 =>
    if statuses k = "done" then some []
    else Option.map (fun l => 10 :: l) (pollFrom statuses (k + 1) fuel)

/-- The polling loop started from the status right after submission. -/
def poll (statuses : Nat → String) (fuel : Nat) : Option (List Nat) :=
  pollFrom statuses 0 fuel

/-- C1: when the provider lookup returns no existing record, the decision
is Create, and the record submitted for creation has name the configured
host, type "A", the configured ttl, and the single value resolved in this
pass; carrying the decision out submits exactly one change whose sole
addition is that record. -/
theorem c1_no_record_creates (ip : String) (cfg : HostConfig)
    (outcome : ChangeSub → Bool) :
    Decide ip cfg [] =
      some (Decision.create
        { name := cfg.host, type := "A", ttl := cfg.ttl, rrdatas := [ip] }) ∧
    (apply_run outcome (Decision.create (record_set cfg ip))).1 =
      [{ deletions := [],
         additions := [{ name := cfg.host, type := "A", ttl := cfg.ttl,
                         rrdatas := [ip] }] }] := by
  exact ⟨rfl, rfl⟩

/-- C2: when the fetched record's name and type match the configuration
and its value equals the resolved IP, the decision is NoOp and carrying it
out issues zero change submissions — no provider call beyond the
lookup. -/
theorem c2_equal_ip_noop (ip : String) (cfg : HostConfig) (r : Record)
    (rest : List Record) (vs : List String) (outcome : ChangeSub → Bool)
    (hname : r.name = cfg.host) (htype : r.type = "A")
    (hvals : r.rrdatas = ip :: vs) :
    Decide ip cfg (r :: rest) = some Decision.noop ∧
    (apply_run outcome Decision.noop).1 = [] := by
  refine ⟨?_, rfl⟩
  rcases r with ⟨n, t, tl, ds⟩
  simp only at hname htype hvals
  subst hname htype hvals
  unfold Decide
  simp

theorem c2_equal_ip_noop_witness :
    Decide "1.2.3.4"
        { project_id := "p", managed_zone := "z", domain := "example.com",
          host := "www.example.com.", ttl := 300, interval := 60 }
        [{ name := "www.example.com.", type := "A", ttl := 300,
           rrdatas := ["1.2.3.4"] }] = some Decision.noop ∧
    (apply_run (fun _ => true) Decision.noop).1 = [] :=
  c2_equal_ip_noop "1.2.3.4"
    { project_id := "p", managed_zone := "z", domain := "example.com",
      host := "www.example.com.", ttl := 300, interval := 60 }
    { name := "www.example.com.", type := "A", ttl := 300,
      rrdatas := ["1.2.3.4"] }
    [] [] (fun _ => true) rfl rfl rfl

/-- C3: when the fetched record matches the configured name and type but
its (sole) value differs from the resolved IP, the decision is
Replace(old, fresh) with old exactly the fetched record and fresh's values
exactly the resolved IP, and carrying it out issues exactly one deletion
of old followed by exactly one addition of fresh. -/
theorem c3_differing_ip_replaces (ip : String) (cfg : HostConfig)
    (r : Record) (rest : List Record) (v : String)
    (outcome : ChangeSub → Bool)
    (hname : r.name = cfg.host) (htype : r.type = "A")
    (hvals : r.rrdatas = [v]) (hne : v ≠ ip) :
    Decide ip cfg (r :: rest) =
      some (Decision.replace r (record_set cfg ip)) ∧
    (record_set cfg ip).rrdatas = [ip] ∧
    (apply_run outcome (Decision.replace r (record_set cfg ip))).1 =
      [delete_sub r, create_sub (record_set cfg ip)] := by
  refine ⟨?_, rfl, rfl⟩
  rcases r with ⟨n, t, tl, ds⟩
  simp only at hname htype hvals
  subst hname htype hvals
  unfold Decide
  simp [hne]

theorem c3_differing_ip_replaces_witness :
    Decide "1.2.3.4"
        { project_id := "p", managed_zone := "z", domain := "example.com",
          host := "www.example.com.", ttl := 300, interval := 60 }
        [{ name := "www.example.com.", type := "A", ttl := 300,
           rrdatas := ["9.9.9.9"] }] =
      some (Decision.replace
        { name := "www.example.com.", type := "A", ttl := 300,
          rrdatas := ["9.9.9.9"] }
        (record_set
          { project_id := "p", managed_zone := "z", domain := "example.com",
            host := "www.example.com.", ttl := 300, interval := 60 }
          "1.2.3.4")) ∧
    (record_set
        { project_id := "p", managed_zone := "z", domain := "example.com",
          host := "www.example.com.", ttl := 300, interval := 60 }
        "1.2.3.4").rrdatas = ["1.2.3.4"] ∧
    (apply_run (fun _ => true)
        (Decision.replace
          { name := "www.example.com.", type := "A", ttl := 300,
            rrdatas := ["9.9.9.9"] }
          (record_set
            { project_id := "p", managed_zone := "z", domain := "example.com",
              host := "www.example.com.", ttl := 300, interval := 60 }
            "1.2.3.4"))).1 =
      [delete_sub
        { name := "www.example.com.", type := "A", ttl := 300,
          rrdatas := ["9.9.9.9"] },
       create_sub (record_set
        { project_id := "p", managed_zone := "z", domain := "example.com",
          host := "www.example.com.", ttl := 300, interval := 60 }
        "1.2.3.4")] :=
  c3_differing_ip_replaces "1.2.3.4"
    { project_id := "p", managed_zone := "z", domain := "example.com",
      host := "www.example.com.", ttl := 300, interval := 60 }
    { name := "www.example.com.", type := "A", ttl := 300,
      rrdatas := ["9.9.9.9"] }
    [] "9.9.9.9" (fun _ => true) rfl rfl rfl (by decide)

/-- C5: when the fetched record's name or type does not match the host's
configuration, the decision is the log-only mismatch case: a mismatch
error is logged, no change submission is made, and no provider call beyond
the lookup occurs. -/
theorem c5_mismatch_logs_only (ip : String) (cfg : HostConfig) (r : Record)
    (rest : List Record) (gip : String) (vs : List String)
    (outcome : ChangeSub → Bool)
    (hvals : r.rrdatas = gip :: vs)
    (hmm : ¬ (r.name = cfg.host ∧ r.type = "A")) :
    Decide ip cfg (r :: rest) = some Decision.mismatch ∧
    (apply_run outcome Decision.mismatch).1 = [] ∧
    (apply_run outcome Decision.mismatch).2 = [LogEvent.mismatchError] := by
  refine ⟨?_, rfl, rfl⟩
  rcases r with ⟨n, t, tl, ds⟩
  simp only at hvals hmm
  subst hvals
  unfold Decide
  simp [hmm]

theorem c5_mismatch_logs_only_witness :
    Decide "1.2.3.4"
        { project_id := "p", managed_zone := "z", domain := "example.com",
          host := "www.example.com.", ttl := 300, interval := 60 }
        [{ name := "other.example.com.", type := "A", ttl := 300,
           rrdatas := ["9.9.9.9"] }] = some Decision.mismatch ∧
    (apply_run (fun _ => true) Decision.mismatch).1 = [] ∧
    (apply_run (fun _ => true) Decision.mismatch).2 =
      [LogEvent.mismatchError] :=
  c5_mismatch_logs_only "1.2.3.4"
    { project_id := "p", managed_zone := "z", domain := "example.com",
      host := "www.example.com.", ttl := 300, interval := 60 }
    { name := "other.example.com.", type := "A", ttl := 300,
      rrdatas := ["9.9.9.9"] }
    [] "9.9.9.9" [] (fun _ => true) rfl (by decide)

/-- C6: when the deletion of a Replace fails, the creation of the new
record is still attempted — the submissions are still exactly one deletion
followed by one addition, with no rollback and no second deletion — and
the failure is only logged. -/
theorem c6_failed_delete_still_creates (old fresh : Record)
    (outcome : ChangeSub → Bool)
    (hfail : outcome (delete_sub old) = false) :
    (apply_run outcome (Decision.replace old fresh)).1 =
      [delete_sub old, create_sub fresh] ∧
    LogEvent.deleteFailed old ∈ (apply_run outcome (Decision.replace old fresh)).2 := by
  refine ⟨rfl, ?_⟩
  simp [apply_run, hfail]

theorem c6_failed_delete_still_creates_witness :
    (apply_run (fun _ => false)
        (Decision.replace
          { name := "www.example.com.", type := "A", ttl := 300,
            rrdatas := ["9.9.9.9"] }
          { name := "www.example.com.", type := "A", ttl := 300,
            rrdatas := ["1.2.3.4"] })).1 =
      [delete_sub
        { name := "www.example.com.", type := "A", ttl := 300,
          rrdatas := ["9.9.9.9"] },
       create_sub
        { name := "www.example.com.", type := "A", ttl := 300,
          rrdatas := ["1.2.3.4"] }] ∧
    LogEvent.deleteFailed
        { name := "www.example.com.", type := "A", ttl := 300,
          rrdatas := ["9.9.9.9"] } ∈
      (apply_run (fun _ => false)
        (Decision.replace
          { name := "www.example.com.", type := "A", ttl := 300,
            rrdatas := ["9.9.9.9"] }
          { name := "www.example.com.", type := "A", ttl := 300,
            rrdatas := ["1.2.3.4"] })).2 :=
  c6_failed_delete_still_creates
    { name := "www.example.com.", type := "A", ttl := 300,
      rrdatas := ["9.9.9.9"] }
    { name := "www.example.com.", type := "A", ttl := 300,
      rrdatas := ["1.2.3.4"] }
    (fun _ => false) rfl

/-- C10: with a non-empty lookup response, the decision depends only on
the first returned record and only on that record's first value — the
remaining records and the remaining values never change it — and the old
record deleted by a Replace carries only that first value. -/
theorem c10_first_record_first_value (ip : String) (cfg : HostConfig)
    (nm ty : String) (tl : Nat) (v : String) (vs vs2 : List String)
    (rest rest2 : List Record) :
    Decide ip cfg
        ({ name := nm, type := ty, ttl := tl, rrdatas := v :: vs } :: rest) =
      Decide ip cfg
        ({ name := nm, type := ty, ttl := tl, rrdatas := v :: vs2 } :: rest2) ∧
    (∀ old fresh,
      Decide ip cfg
          ({ name := nm, type := ty, ttl := tl, rrdatas := v :: vs } :: rest) =
        some (Decision.replace old fresh) → old.rrdatas = [v]) := by
  constructor
  · rfl
  · intro old fresh h
    unfold Decide at h
    by_cases hc : nm = cfg.host ∧ ty = "A"
    · by_cases hv : v = ip
      · simp [hc, hv] at h
      · simp [hc, hv] at h
        rw [← h.1]
    · simp [hc] at h

theorem c10_first_record_first_value_witness :
    Decide "1.2.3.4"
        { project_id := "p", managed_zone := "z", domain := "example.com",
          host := "www.example.com.", ttl := 300, interval := 60 }
        [{ name := "www.example.com.", type := "A", ttl := 300,
           rrdatas := ["9.9.9.9", "8.8.8.8"] },
         { name := "extra.example.com.", type := "A", ttl := 10,
           rrdatas := ["7.7.7.7"] }] =
      Decide "1.2.3.4"
        { project_id := "p", managed_zone := "z", domain := "example.com",
          host := "www.example.com.", ttl := 300, interval := 60 }
        [{ name := "www.example.com.", type := "A", ttl := 300,
           rrdatas := ["9.9.9.9"] }] ∧
    ({ name := "www.example.com.", type := "A", ttl := 300,
       rrdatas := ["9.9.9.9"] } : Record).rrdatas = ["9.9.9.9"] :=
  ⟨(c10_first_record_first_value "1.2.3.4"
      { project_id := "p", managed_zone := "z", domain := "example.com",
        host := "www.example.com.", ttl := 300, interval := 60 }
      "www.example.com." "A" 300 "9.9.9.9" ["8.8.8.8"] []
      [{ name := "extra.example.com.", type := "A", ttl := 10,
         rrdatas := ["7.7.7.7"] }] []).1,
   (c10_first_record_first_value "1.2.3.4"
      { project_id := "p", managed_zone := "z", domain := "example.com",
        host := "www.example.com.", ttl := 300, interval := 60 }
      "www.example.com." "A" 300 "9.9.9.9" ["8.8.8.8"] []
      [{ name := "extra.example.com.", type := "A", ttl := 10,
         rrdatas := ["7.7.7.7"] }] []).2
     { name := "www.example.com.", type := "A", ttl := 300,
       rrdatas := ["9.9.9.9"] }
     (record_set
       { project_id := "p", managed_zone := "z", domain := "example.com",
         host := "www.example.com.", ttl := 300, interval := 60 }
       "1.2.3.4")
     (by decide)⟩

/-- A concrete first host used to exercise the cycle model. -/
def cfgA : HostConfig :=
  { project_id := "p", managed_zone := "z", domain := "example.com",
    host := "a.example.com.", ttl := 300, interval := 60 }

/-- A concrete second host used to exercise the cycle model. -/
def cfgB : HostConfig :=
  { project_id := "p", managed_zone := "z", domain := "example.com",
    host := "b.example.com.", ttl := 120, interval := 30 }

/-- An environment in which everything succeeds and the lookup finds no
existing record. -/
def envOk : PassEnv :=
  { client_ok := true, ip_status := 200, ip := "1.2.3.4",
    lookup := LookupOutcome.ok [], outcome := fun _ => true }

/-- An environment in which the provider lookup raises `corexc.Forbidden`. -/
def envForbidden : PassEnv :=
  { envOk with lookup := LookupOutcome.forbidden }

/-- An environment in which the ipify request returns HTTP 500. -/
def envBadIp : PassEnv :=
  { envOk with ip_status := 500 }

/-- An environment in which `dns.Client` construction raises a
credential error. -/
def envNoClient : PassEnv :=
  { envOk with client_ok := false }

/-- An environment in which the provider lookup raises
`errors.HttpError`. -/
def envHttpErr : PassEnv :=
  { envOk with lookup := LookupOutcome.httpError }

/-- C4 counterexample: applying a Replace does not bundle the deletion and
the addition into a single change submission.  At a concrete Replace the
trace has two submissions, and no submission carries both a deletion and
an addition. -/
theorem c4_counterexample :
    ((apply_run (fun _ => true)
        (Decision.replace
          { name := "www.example.com.", type := "A", ttl := 300,
            rrdatas := ["9.9.9.9"] }
          { name := "www.example.com.", type := "A", ttl := 300,
            rrdatas := ["1.2.3.4"] })).1.length = 2) ∧
    (∀ s ∈ (apply_run (fun _ => true)
        (Decision.replace
          { name := "www.example.com.", type := "A", ttl := 300,
            rrdatas := ["9.9.9.9"] }
          { name := "www.example.com.", type := "A", ttl := 300,
            rrdatas := ["1.2.3.4"] })).1,
      s.deletions = [] ∨ s.additions = []) := by
  decide

/-- C4 amended: applying a Replace submits the deletion of the old record
and the addition of the new record as two separate change submissions, the
deletion first, each carrying a single operation (each submission is then
polled to completion by `dns_change`). -/
theorem c4_two_separate_submissions (old fresh : Record)
    (outcome : ChangeSub → Bool) :
    (apply_run outcome (Decision.replace old fresh)).1 =
      [delete_sub old, create_sub fresh] ∧
    (delete_sub old).additions = [] ∧
    (create_sub fresh).deletions = [] :=
  ⟨rfl, rfl, rfl⟩

/-- C7 counterexample: a `Forbidden` provider error during the first
host's pass makes `main` return 1 — the process exits and the second
configured host is never reconciled in that cycle. -/
theorem c7_counterexample :
    (runCycle
        (fun cfg => if cfg.host = "a.example.com." then envForbidden else envOk)
        [cfgA, cfgB]).ending = CycleEnd.exited 1 ∧
    (runCycle
        (fun cfg => if cfg.host = "a.example.com." then envForbidden else envOk)
        [cfgA, cfgB]).processed = ["a.example.com."] := by
  decide

/-- C7 amended: only the IP-resolver failure is isolated to its host —
the pass logs, sleeps that host's own interval and the loop continues
with the remaining hosts unchanged — while a credential failure when
constructing the client, and a provider lookup error of either caught
class (`errors.HttpError` or `corexc.Forbidden`), make the process exit
with code 1, so the remaining hosts of the cycle are not reconciled. -/
theorem c7_per_host_error_policy (cfg : HostConfig) (rest : List HostConfig)
    (env : HostConfig → PassEnv)
    (hlast : cfg.host.data.getLast? = some '.') :
    ((env cfg).client_ok = true → (env cfg).ip_status ≠ 200 →
      runCycle env (cfg :: rest) =
        { sleeps := cfg.interval :: (runCycle env rest).sleeps,
          subs := (runCycle env rest).subs,
          processed := cfg.host :: (runCycle env rest).processed,
          ending := (runCycle env rest).ending }) ∧
    ((env cfg).client_ok = false →
      runCycle env (cfg :: rest) =
        { sleeps := [], subs := [], processed := [cfg.host],
          ending := CycleEnd.exited 1 }) ∧
    ((env cfg).client_ok = true → (env cfg).ip_status = 200 →
      ((env cfg).lookup = LookupOutcome.httpError ∨
        (env cfg).lookup = LookupOutcome.forbidden) →
      runCycle env (cfg :: rest) =
        { sleeps := [], subs := [], processed := [cfg.host],
          ending := CycleEnd.exited 1 }) := by
  refine ⟨?_, ?_, ?_⟩
  · intro hcl hip
    have hs : hostStep cfg (env cfg) = StepResult.sleepContinue cfg.interval := by
      unfold hostStep
      rw [hlast]
      simp [hcl, hip]
    simp only [runCycle, hs]
  · intro hcl
    have hs : hostStep cfg (env cfg) = StepResult.exit 1 := by
      unfold hostStep
      rw [hlast]
      simp [hcl]
    simp only [runCycle, hs]
  · intro hcl h200 hlk
    have hs : hostStep cfg (env cfg) = StepResult.exit 1 := by
      unfold hostStep
      rw [hlast]
      rcases hlk with hlk | hlk <;> simp [hcl, h200, hlk]
    simp only [runCycle, hs]

theorem c7_per_host_error_policy_witness :
    runCycle (fun _ => envBadIp) [cfgA, cfgB] =
      { sleeps := cfgA.interval :: (runCycle (fun _ => envBadIp) [cfgB]).sleeps,
        subs := (runCycle (fun _ => envBadIp) [cfgB]).subs,
        processed := cfgA.host :: (runCycle (fun _ => envBadIp) [cfgB]).processed,
        ending := (runCycle (fun _ => envBadIp) [cfgB]).ending } ∧
    runCycle (fun _ => envNoClient) [cfgA, cfgB] =
      { sleeps := [], subs := [], processed := [cfgA.host],
        ending := CycleEnd.exited 1 } ∧
    runCycle (fun _ => envHttpErr) [cfgA, cfgB] =
      { sleeps := [], subs := [], processed := [cfgA.host],
        ending := CycleEnd.exited 1 } ∧
    runCycle (fun _ => envForbidden) [cfgA, cfgB] =
      { sleeps := [], subs := [], processed := [cfgA.host],
        ending := CycleEnd.exited 1 } :=
  ⟨(c7_per_host_error_policy cfgA [cfgB] (fun _ => envBadIp)
      (by decide)).1 rfl (by decide),
   (c7_per_host_error_policy cfgA [cfgB] (fun _ => envNoClient)
      (by decide)).2.1 rfl,
   (c7_per_host_error_policy cfgA [cfgB] (fun _ => envHttpErr)
      (by decide)).2.2 rfl rfl (Or.inl rfl),
   (c7_per_host_error_policy cfgA [cfgB] (fun _ => envForbidden)
      (by decide)).2.2 rfl rfl (Or.inr rfl)⟩

/-- C8 counterexample: a cycle over two hosts in which the first host's
ipify request fails sleeps twice — once for the failing host's own
interval (line 150) and once for the last host's interval (line 231) —
not exactly once. -/
theorem c8_counterexample :
    (runCycle
        (fun cfg => if cfg.host = "a.example.com." then envBadIp else envOk)
        [cfgA, cfgB]).sleeps = [cfgA.interval, cfgB.interval] ∧
    (runCycle
        (fun cfg => if cfg.host = "a.example.com." then envBadIp else envOk)
        [cfgA, cfgB]).sleeps.length ≠ 1 := by
  decide

/-- Unfolding `runCycle` over a host whose pass completes. -/
theorem runCycle_cons_completed (env : HostConfig → PassEnv)
    (cfg : HostConfig) (rest : List HostConfig) (subs : List ChangeSub)
    (logs : List LogEvent)
    (hs : hostStep cfg (env cfg) = StepResult.completed subs logs) :
    runCycle env (cfg :: rest) =
      { sleeps := (if rest = [] then [cfg.interval] else []) ++
          (runCycle env rest).sleeps,
        subs := subs ++ (runCycle env rest).subs,
        processed := cfg.host :: (runCycle env rest).processed,
        ending := (runCycle env rest).ending } := by
  simp only [runCycle, hs]

/-- C8 amended: in a cycle in which every host's pass completes (in
particular no ipify failure occurs), the cycle sleeps exactly once, for
the interval of the last host in configured order; a pass whose IP
resolution fails adds its own extra sleep instead. -/
theorem c8_single_sleep_when_all_complete (env : HostConfig → PassEnv) :
    ∀ (hosts : List HostConfig) (lastHost : HostConfig),
      hosts.getLast? = some lastHost →
      (∀ cfg ∈ hosts, ∃ subs logs,
        hostStep cfg (env cfg) = StepResult.completed subs logs) →
      (runCycle env hosts).sleeps = [lastHost.interval] := by
  intro hosts
  induction hosts with
  | nil => intro lastHost h; simp at h
  | cons cfg rest ih =>
    intro lastHost hlast hall
    obtain ⟨subs, logs, hs⟩ := hall cfg (List.mem_cons_self cfg rest)
    cases rest with
    | nil =>
      simp only [List.getLast?_singleton, Option.some.injEq] at hlast
      subst hlast
      simp only [runCycle, hs]
      simp [runCycle]
    | cons b bs =>
      rw [List.getLast?_cons_cons] at hlast
      have h2 := ih lastHost hlast (fun c hc => hall c (List.mem_cons_of_mem _ hc))
      rw [runCycle_cons_completed env cfg (b :: bs) subs logs hs]
      simp [h2]

theorem c8_single_sleep_when_all_complete_witness :
    (runCycle (fun _ => envOk) [cfgA, cfgB]).sleeps = [cfgB.interval] := by
  have h := c8_single_sleep_when_all_complete (fun _ => envOk) [cfgA, cfgB]
    cfgB rfl
    (by
      intro cfg hc
      simp only [List.mem_cons, List.not_mem_nil, or_false] at hc
      rcases hc with h | h
      · subst h
        exact ⟨[create_sub (record_set cfgA "1.2.3.4")],
          [LogEvent.noRecordInfo (record_set cfgA "1.2.3.4")], by decide⟩
      · subst h
        exact ⟨[create_sub (record_set cfgB "1.2.3.4")],
          [LogEvent.noRecordInfo (record_set cfgB "1.2.3.4")], by decide⟩)
  exact h

/-- After `change.create()` the loop at lines 278-284 exits only when the
status reads "done"; otherwise it sleeps 10 seconds and reloads, with no
attempt bound: within any fuel it returns `none` when "done" never
appears. -/
theorem pollFrom_never_done (statuses : Nat → String)
    (h : ∀ n, statuses n ≠ "done") :
    ∀ fuel k, pollFrom statuses k fuel = none := by
  intro fuel
  induction fuel with
  | zero => intro k; simp [pollFrom, h k]
  | succ f ih => intro k; simp [pollFrom, h k, ih (k + 1)]

/-- When "done" first appears after `n` reloads, the loop performs exactly
`n` sleeps of 10 seconds, given enough fuel. -/
theorem pollFrom_first_done (statuses : Nat → String) :
    ∀ n k fuel, statuses (k + n) = "done" →
      (∀ m, m < n → statuses (k + m) ≠ "done") → n ≤ fuel →
      pollFrom statuses k fuel = some (List.replicate n 10) := by
  intro n
  induction n with
  | zero =>
    intro k fuel hd _ _
    have hk : statuses k = "done" := by simpa using hd
    cases fuel <;> simp [pollFrom, hk]
  | succ n ih =>
    intro k fuel hd hmin hle
    have hk : statuses k ≠ "done" := by
      have := hmin 0 (Nat.succ_pos n)
      simpa using this
    cases fuel with
    | zero => exact absurd hle (by simp)
    | succ f =>
      have hle' : n ≤ f := Nat.succ_le_succ_iff.mp hle
      have hd' : statuses (k + 1 + n) = "done" := by
        rw [show k + 1 + n = k + (n + 1) by omega]
        exact hd
      have hmin' : ∀ m, m < n → statuses (k + 1 + m) ≠ "done" := by
        intro m hm
        rw [show k + 1 + m = k + (m + 1) by omega]
        exact hmin (m + 1) (Nat.succ_lt_succ hm)
      have hrec := ih (k + 1) f hd' hmin' hle'
      simp [pollFrom, hk, hrec, List.replicate_succ]

/-- C9: the status polling of `dns_change` sleeps a fixed 10 seconds
between queries with no attempt bound or timeout: when the status never
reads "done" it returns within no fuel bound at all (the loop never
exits), and when "done" first appears after `n` reloads it succeeds
having slept exactly `n` times, 10 seconds each. -/
theorem c9_poll_protocol (statuses : Nat → String) :
    ((∀ n, statuses n ≠ "done") → ∀ fuel, poll statuses fuel = none) ∧
    (∀ n, statuses n = "done" → (∀ m, m < n → statuses m ≠ "done") →
      ∀ fuel, n ≤ fuel → poll statuses fuel = some (List.replicate n 10)) := by
  constructor
  · intro h fuel
    exact pollFrom_never_done statuses h fuel 0
  · intro n hd hmin fuel hle
    exact pollFrom_first_done statuses n 0 fuel (by simpa using hd)
      (by intro m hm; simpa using hmin m hm) hle

theorem c9_poll_protocol_witness :
    poll (fun _ => "pending") 3 = none ∧
    poll (fun n => if n = 2 then "done" else "pending") 5 =
      some (List.replicate 2 10) :=
  ⟨(c9_poll_protocol (fun _ => "pending")).1 (fun n => by decide) 3,
   (c9_poll_protocol (fun n => if n = 2 then "done" else "pending")).2 2
     (by decide) (by decide) 5 (by decide)⟩

end GcpDdns
